import Mathlib

/-!
Shallow embedding of the posterzpipeline extraction / validation /
orchestration core (src/utils.py, src/schemas.py, src/extractors/baseline.py,
src/extractors/km_survival.py, src/extractors/response_outcomes.py,
src/extractors/pooled_population.py, src/pipeline.py, src/main.py).

Python runtime values coming out of JSON parsing are modelled by the
inductive `PyVal`; Python dicts are association lists with unique keys
(lookup takes the first binding, genuine dicts never repeat keys); Python
floats are modelled as rationals: the pipeline only ever sees finite floats
parsed from JSON text, and JSON has no NaN/Inf.  `json.loads` and pydantic's
`model_validate_json` are external library calls; functions that depend on
them are parameterised by an explicit `loads` argument.
-/

set_option maxRecDepth 8192

/-- Model of a Python/JSON runtime value as it flows through the pipeline.
`bool` is kept distinct from `int`; the spots where Python's bool-is-an-int
subtyping matters go through `pyIsInstanceInt` / `pyIntVal` below. -/
inductive PyVal where
  | none
  | bool (b : Bool)
  | int (n : Int)
  | float (q : Rat)
  | str (s : String)
  | list (xs : List PyVal)
  | dict (xs : List (String × PyVal))

/-- Python dicts, modelled as association lists. -/
abbrev PyDict := List (String × PyVal)

/-- `d.get(k)` / `d[k]`: the value stored under `k`, if the key is present. -/
def dGet (d : PyDict) (k : String) : Option PyVal :=
  (d.find? (fun p => p.1 == k)).map (·.2)

/-- `d[k] = v`: replace the binding in place when the key exists (a dict has
at most one binding per key), else append (Python dicts keep insertion
order). -/
def dSet (d : PyDict) (k : String) (v : PyVal) : PyDict :=
  match d with
  | [] => [(k, v)]
  | p :: tl => if p.1 == k then (k, v) :: tl else p :: dSet tl k v

/-- The keys of a dict, in insertion order. -/
def keysOf (d : PyDict) : List String := d.map Prod.fst

/-- `isinstance(x, int)` — true for Python ints and bools (bool is an int
subtype in Python). -/
def pyIsInstanceInt : PyVal → Bool
  | .int _ => true
  | .bool _ => true
  | _ => false

/-- The integer value of an int-instance (`True == 1`, `False == 0`). -/
def pyIntVal : PyVal → Int
  | .int n => n
  | .bool b => if b then 1 else 0
  | _ => 0

/-- Characters stripped by Python's `str.strip()` (the ASCII whitespace
class used by `\s` as well). -/
def isPySpace (c : Char) : Bool :=
  c = ' ' || c = '\t' || c = '\n' || c = '\r' || c = Char.ofNat 11 || c = Char.ofNat 12

/-- Python `str.strip()` on a character list. -/
def pyStripList (s : List Char) : List Char :=
  ((s.dropWhile isPySpace).reverse.dropWhile isPySpace).reverse

/-- Python `str.strip()`. -/
def pyStrip (s : String) : String :=
  String.mk (pyStripList s.toList)

/-- Python `int()` applied to a finite float: truncation toward zero. -/
def truncRat (q : Rat) : Int := Int.tdiv q.num (q.den : Int)

/-- Digit run → value, base 10. -/
def parseDigits (ds : List Char) : Nat :=
  ds.foldl (fun a c => a * 10 + (c.toNat - 48)) 0

/-- Is the head of the list a decimal digit? -/
def headIsDigit : List Char → Bool
  | c :: _ => c.isDigit
  | [] => false

/-- `re.search(r"-?\d+", s)`: the leftmost maximal match of an optional minus
sign followed by one or more digits, as a character list. -/
def findIntToken : List Char → Option (List Char)
  | [] => Option.none
  | c :: rest =>
    if c.isDigit then some (c :: rest.takeWhile Char.isDigit)
    else if c = '-' && headIsDigit rest then some (c :: rest.takeWhile Char.isDigit)
    else findIntToken rest

/-- `int(tok)` for a token produced by `findIntToken`. -/
def parseIntToken (t : List Char) : Int :=
  match t with
  | '-' :: ds => -(parseDigits ds : Int)
  | ds => (parseDigits ds : Int)

/-- src/utils.py `to_int_or_none`: None → None; int → itself (bools are int
instances and flow through by value); float → truncation; str → first
`-?\d+` token of the stripped string, else None; anything else → None. -/
def to_int_or_none : PyVal → Option Int
  | PyVal.none => Option.none
  | PyVal.bool b => some (if b then 1 else 0)
  | PyVal.int n => some n
  | PyVal.float q => some (truncRat q)
  | PyVal.str s =>
    match findIntToken (pyStripList s.toList) with
    | some tok => some (parseIntToken tok)
    | Option.none => Option.none
  | PyVal.list _ => Option.none
  | PyVal.dict _ => Option.none

/-- The fractional continuation of a decimal token: `(?:\.\d+)?` only
extends the match when a digit follows the dot. -/
def floatTokenFrom (l : List Char) : List Char :=
  let ds := l.takeWhile Char.isDigit
  match l.drop ds.length with
  | '.' :: r2 =>
    if headIsDigit r2 then ds ++ '.' :: r2.takeWhile Char.isDigit else ds
  | _ => ds

/-- `re.search(r"-?\d+(?:\.\d+)?", s)`: leftmost match. -/
def findFloatToken : List Char → Option (List Char)
  | [] => Option.none
  | c :: rest =>
    if c.isDigit then some (floatTokenFrom (c :: rest))
    else if c = '-' && headIsDigit rest then some ('-' :: floatTokenFrom rest)
    else findFloatToken rest

/-- The value of an unsigned decimal token. -/
def parseUnsignedFloat (u : List Char) : Rat :=
  let ds := u.takeWhile Char.isDigit
  match u.drop ds.length with
  | '.' :: fs => mkRat (parseDigits ds * 10 ^ fs.length + parseDigits fs) (10 ^ fs.length)
  | _ => (parseDigits ds : Rat)

/-- `float(tok)` for a token produced by `findFloatToken`. -/
def parseFloatToken (t : List Char) : Rat :=
  match t with
  | '-' :: u => -(parseUnsignedFloat u)
  | u => parseUnsignedFloat u

/-- src/utils.py `to_float_or_none`: None → None; int/float (and bool, an
int instance) → float value; str → strip, drop every `%`, strip again, first
`-?\d+(?:\.\d+)?` token, else None; anything else → None. -/
def to_float_or_none : PyVal → Option Rat
  | PyVal.none => Option.none
  | PyVal.bool b => some (if b then 1 else 0)
  | PyVal.int n => some (n : Rat)
  | PyVal.float q => some q
  | PyVal.str s =>
    let t := pyStripList ((pyStripList s.toList).filter (fun c => c != '%'))
    (findFloatToken t).map parseFloatToken
  | PyVal.list _ => Option.none
  | PyVal.dict _ => Option.none

example : pyStrip "  a b \n" = "a b" := by decide
example : truncRat (mkRat (-7) 2) = -3 := by decide
example : to_int_or_none (PyVal.str "42 patients") = some 42 := by decide
example : to_int_or_none (PyVal.str "n/a") = Option.none := by decide
example : to_int_or_none (PyVal.str "x-12") = some (-12) := by decide
example : to_float_or_none (PyVal.str " 12.5% ") = some (mkRat 25 2) := by decide
example : to_float_or_none (PyVal.str "a-b1.2.3") = some (mkRat 6 5) := by decide
example : to_float_or_none (PyVal.str "--") = Option.none := by decide
example : dGet (dSet [] "a" (PyVal.int 1)) "a" = some (PyVal.int 1) := rfl

/-! ## ResponseSanitizer (src/utils.py) -/

/-- The backtick character. -/
def btChar : Char := Char.ofNat 96

/-- The opening curly brace. -/
def obrace : Char := Char.ofNat 123

/-- The closing curly brace. -/
def cbrace : Char := Char.ofNat 125

/-- A markdown code fence marker. -/
def fenceChars : List Char := [btChar, btChar, btChar]

/-- The effect of `re.sub(r"^` + three backticks + `(?:json)?\s*", "", text)`:
drop a leading fence, then a literal `json` tag if it immediately follows,
then any whitespace. -/
def removeLeadingFence (t : List Char) : List Char :=
  if t.take 3 = fenceChars then
    let r := t.drop 3
    let r := if r.take 4 = ['j', 's', 'o', 'n'] then r.drop 4 else r
    r.dropWhile isPySpace
  else t

/-- The effect of `re.sub(r"\s*` + three backticks + `$", "", text)`: when the
text ends with a fence, drop it together with the whitespace run before it. -/
def removeTrailingFence (t : List Char) : List Char :=
  if t.reverse.take 3 = fenceChars then
    ((t.reverse.drop 3).dropWhile isPySpace).reverse
  else t

/-- The leftmost-greedy match of a brace-to-brace span with dot-matches-all:
the substring from the first opening brace to the last closing brace,
when the latter comes after the former. -/
def braceSpan (t : List Char) : Option (List Char) :=
  match t.findIdx? (fun c => c == obrace),
        (t.reverse.findIdx? (fun c => c == cbrace)).map (fun j => t.length - 1 - j) with
  | some i, some j => if i < j then some ((t.drop i).take (j - i + 1)) else Option.none
  | _, _ => Option.none

/-- The error taxonomy of the lenient sanitizer `extract_first_json_object`. -/
inductive SanitizeError where
  | emptyOutput
  | noJsonFound
  | malformedJson
deriving DecidableEq

/-- src/utils.py `extract_first_json_object`, parameterised by the external
JSON parser `loads` (`json.loads`; `Option.none` models a parse exception):
strip; error on blank; drop markdown fences; parse directly when the text is
a complete brace-delimited span; otherwise parse the first-to-last-brace
substring, with the documented error taxonomy. -/
def extract_first_json_object {J : Type} (loads : String → Option J)
    (text0 : String) : Except SanitizeError J :=
  let text := pyStrip text0
  if text = "" then Except.error SanitizeError.emptyOutput
  else
    let t := removeTrailingFence (removeLeadingFence text.toList)
    if t.take 1 = [obrace] ∧ t.reverse.take 1 = [cbrace] then
      match loads (String.mk t) with
      | some j => Except.ok j
      | Option.none => Except.error SanitizeError.malformedJson
    else
      match braceSpan t with
      | Option.none => Except.error SanitizeError.noJsonFound
      | some sp =>
        match loads (String.mk sp) with
        | some j => Except.ok j
        | Option.none => Except.error SanitizeError.malformedJson

/-- Errors surfaced by Stage 1 (src/utils.py `safe_json_text` raising
`RuntimeError`, and src/extractors/pooled_population.py wrapping a pydantic
`ValidationError` into `RuntimeError`). -/
inductive Stage1Error where
  | notValidJson (context : String)
  | schemaValidationFailed (imageId : String)
deriving DecidableEq

/-- src/utils.py `safe_json_text`: strip (`model_text or ""` guards None);
return the stripped text unchanged when it starts with an opening brace and
ends with a closing brace, without parsing it; otherwise raise. -/
def safe_json_text (model_text : Option String) (context : String) :
    Except Stage1Error String :=
  let txt := pyStrip (model_text.getD "")
  if txt.toList.take 1 = [obrace] ∧ txt.toList.reverse.take 1 = [cbrace] then
    Except.ok txt
  else Except.error (Stage1Error.notValidJson context)

/-- The Stage 1 sanitize-then-validate sequence of
`PooledPopulationExtractor.extract` (src/extractors/pooled_population.py
lines 40-45), parameterised by pydantic's `model_validate_json`. -/
def pooledStage1Validate {M : Type} (modelValidateJson : String → Option M)
    (imageId : String) (modelText : Option String) : Except Stage1Error M :=
  match safe_json_text modelText imageId with
  | Except.error e => Except.error e
  | Except.ok rawJson =>
    match modelValidateJson rawJson with
    | some m => Except.ok m
    | Option.none => Except.error (Stage1Error.schemaValidationFailed imageId)

example :
    extract_first_json_object (fun s => some s) "\x7b\x22a\x22: 1\x7d" =
      Except.ok "\x7b\x22a\x22: 1\x7d" := rfl
example :
    extract_first_json_object (J := String) (fun s => some s) "   " =
      Except.error SanitizeError.emptyOutput := rfl
example :
    extract_first_json_object (fun s => some s) "prose \x7ba\x7d more \x7bb\x7d tail" =
      Except.ok "\x7ba\x7d more \x7bb\x7d" := rfl
example :
    extract_first_json_object (J := String) (fun s => some s) "no json here" =
      Except.error SanitizeError.noJsonFound := rfl
example :
    String.mk (removeTrailingFence (removeLeadingFence "\x60\x60\x60json\n\x7ba\x7d\n\x60\x60\x60".toList)) =
      "\x7ba\x7d" := by decide

/-! ## SchemaRegistry (src/schemas.py)

Pydantic models with `extra="forbid"` are embedded as strict validators over
`PyDict`: unknown keys are rejected, each declared field only accepts values
of its annotated JSON type (the library's lax numeric/string coercions are a
pydantic implementation detail and are outside this embedding), the
`field_validator` range checks are applied, and `Option.none` models a
`ValidationError`.  Serialization (`model_dump_json` with full field output)
emits every declared field in declaration order, absent optionals as null. -/

/-- Literal values of `PopulationType` (src/schemas.py lines 19-26). -/
def PopulationTypeValues : List String :=
  ["Overall", "Analysis set", "Cohort", "Baseline characteristic", "Subgroup", "Other"]

/-- Literal values of `BaselineParent` apart from `None`
(src/schemas.py line 190). -/
def BaselineParentValues : List String :=
  ["Overall", "Cohort", "Subgroup", "Other"]

/-- Literal values of `TimeUnit` (src/schemas.py line 115). -/
def TimeUnitValues : List String :=
  ["months", "years", "weeks", "days"]

/-- Field check for `Optional[str] = None`: absent or null → None, a string
is taken as is, anything else fails. -/
def vOptStr : Option PyVal → Option (Option String)
  | Option.none => some Option.none
  | some PyVal.none => some Option.none
  | some (PyVal.str s) => some (some s)
  | some _ => Option.none

/-- Field check for a required `int` with a positivity `field_validator`
(`baseline_id`, `survival_outcome_id`, `response_outcome_id` must be ≥ 1). -/
def vReqPosInt : Option PyVal → Option Int
  | some (PyVal.int n) => if 1 ≤ n then some n else Option.none
  | _ => Option.none

/-- Field check for `Optional[int]` with the non-negative-count
`field_validator`. -/
def vOptNonnegInt : Option PyVal → Option (Option Int)
  | Option.none => some Option.none
  | some PyVal.none => some Option.none
  | some (PyVal.int n) => if 0 ≤ n then some (some n) else Option.none
  | _ => Option.none

/-- Field check for `Optional[float]` with a closed range
`field_validator` (`p_value` in [0,1], `population_percentage` in [0,100]). -/
def vOptRangeFloat (lo hi : Rat) : Option PyVal → Option (Option Rat)
  | Option.none => some Option.none
  | some PyVal.none => some Option.none
  | some (PyVal.float q) => if lo ≤ q ∧ q ≤ hi then some (some q) else Option.none
  | some _ => Option.none

/-- Field check for a required closed `Literal[...]` enum field. -/
def vEnum (vals : List String) : Option PyVal → Option String
  | some (PyVal.str s) => if s ∈ vals then some s else Option.none
  | _ => Option.none

/-- Field check for a closed `Literal[..., None]` enum field with default
`None`. -/
def vOptEnum (vals : List String) : Option PyVal → Option (Option String)
  | Option.none => some Option.none
  | some PyVal.none => some Option.none
  | some (PyVal.str s) => if s ∈ vals then some (some s) else Option.none
  | some _ => Option.none

/-- src/schemas.py `BaselineCharacteristic`, as the typed record produced by
a successful validation. -/
structure BaselineCharacteristic where
  baseline_id : Int
  trial_id : Option String
  trial_label : Option String
  arm_key : Option String
  arm_description : Option String
  population_key : Option String
  population_type : String
  population_description : Option String
  baseline_parent : Option String
  parent_description : Option String
  baseline_category_label : Option String
  group_label : Option String
  group_text : Option String
  measure : Option String
  measure_value : Option String
  population_n : Option Int
  population_percentage : Option Rat

/-- The declared field names of `BaselineCharacteristic`, in declaration
order. -/
def bcFieldNames : List String :=
  ["baseline_id", "trial_id", "trial_label", "arm_key", "arm_description",
   "population_key", "population_type", "population_description",
   "baseline_parent", "parent_description", "baseline_category_label",
   "group_label", "group_text", "measure", "measure_value",
   "population_n", "population_percentage"]

/-- The per-field checks of `BaselineCharacteristic.model_validate`:
`baseline_id` required positive, `population_type` required in the closed
enum, `baseline_parent` in `Literal[..., None]`, `population_n ≥ 0`,
`population_percentage` in [0,100], all other fields optional strings
(pydantic reports every violated field; accept/reject is their
conjunction). -/
def bcFieldChecks (d : PyDict) : Bool :=
  (vReqPosInt (dGet d "baseline_id")).isSome &&
  (vOptStr (dGet d "trial_id")).isSome &&
  (vOptStr (dGet d "trial_label")).isSome &&
  (vOptStr (dGet d "arm_key")).isSome &&
  (vOptStr (dGet d "arm_description")).isSome &&
  (vOptStr (dGet d "population_key")).isSome &&
  (vEnum PopulationTypeValues (dGet d "population_type")).isSome &&
  (vOptStr (dGet d "population_description")).isSome &&
  (vOptEnum BaselineParentValues (dGet d "baseline_parent")).isSome &&
  (vOptStr (dGet d "parent_description")).isSome &&
  (vOptStr (dGet d "baseline_category_label")).isSome &&
  (vOptStr (dGet d "group_label")).isSome &&
  (vOptStr (dGet d "group_text")).isSome &&
  (vOptStr (dGet d "measure")).isSome &&
  (vOptStr (dGet d "measure_value")).isSome &&
  (vOptNonnegInt (dGet d "population_n")).isSome &&
  (vOptRangeFloat 0 100 (dGet d "population_percentage")).isSome

/-- The typed record assembled from the checked fields (only meaningful when
`bcFieldChecks` holds; the `getD` defaults are never reached then). -/
def bcBuild (d : PyDict) : BaselineCharacteristic where
  baseline_id := (vReqPosInt (dGet d "baseline_id")).getD 0
  trial_id := (vOptStr (dGet d "trial_id")).getD Option.none
  trial_label := (vOptStr (dGet d "trial_label")).getD Option.none
  arm_key := (vOptStr (dGet d "arm_key")).getD Option.none
  arm_description := (vOptStr (dGet d "arm_description")).getD Option.none
  population_key := (vOptStr (dGet d "population_key")).getD Option.none
  population_type := (vEnum PopulationTypeValues (dGet d "population_type")).getD ""
  population_description := (vOptStr (dGet d "population_description")).getD Option.none
  baseline_parent := (vOptEnum BaselineParentValues (dGet d "baseline_parent")).getD Option.none
  parent_description := (vOptStr (dGet d "parent_description")).getD Option.none
  baseline_category_label := (vOptStr (dGet d "baseline_category_label")).getD Option.none
  group_label := (vOptStr (dGet d "group_label")).getD Option.none
  group_text := (vOptStr (dGet d "group_text")).getD Option.none
  measure := (vOptStr (dGet d "measure")).getD Option.none
  measure_value := (vOptStr (dGet d "measure_value")).getD Option.none
  population_n := (vOptNonnegInt (dGet d "population_n")).getD Option.none
  population_percentage := (vOptRangeFloat 0 100 (dGet d "population_percentage")).getD Option.none

/-- `BaselineCharacteristic.model_validate`: reject unknown keys
(`extra="forbid"`), then apply every field check. -/
def validateBaselineCharacteristic (d : PyDict) : Option BaselineCharacteristic :=
  if ((keysOf d).Nodup ∧ ∀ k ∈ keysOf d, k ∈ bcFieldNames) ∧ bcFieldChecks d = true then
    some (bcBuild d)
  else Option.none

/-- Serialization of an optional string field (`null` when absent). -/
def pyOfOptStr : Option String → PyVal
  | Option.none => PyVal.none
  | some s => PyVal.str s

/-- Serialization of an optional int field. -/
def pyOfOptInt : Option Int → PyVal
  | Option.none => PyVal.none
  | some n => PyVal.int n

/-- Serialization of an optional float field. -/
def pyOfOptRat : Option Rat → PyVal
  | Option.none => PyVal.none
  | some q => PyVal.float q

/-- `model_dump_json` of one `BaselineCharacteristic` (with
`exclude_none=False` every declared field is emitted, in declaration
order, absent optionals as null). -/
def serializeBaselineCharacteristic (r : BaselineCharacteristic) : PyDict :=
  [("baseline_id", PyVal.int r.baseline_id),
   ("trial_id", pyOfOptStr r.trial_id),
   ("trial_label", pyOfOptStr r.trial_label),
   ("arm_key", pyOfOptStr r.arm_key),
   ("arm_description", pyOfOptStr r.arm_description),
   ("population_key", pyOfOptStr r.population_key),
   ("population_type", PyVal.str r.population_type),
   ("population_description", pyOfOptStr r.population_description),
   ("baseline_parent", pyOfOptStr r.baseline_parent),
   ("parent_description", pyOfOptStr r.parent_description),
   ("baseline_category_label", pyOfOptStr r.baseline_category_label),
   ("group_label", pyOfOptStr r.group_label),
   ("group_text", pyOfOptStr r.group_text),
   ("measure", pyOfOptStr r.measure),
   ("measure_value", pyOfOptStr r.measure_value),
   ("population_n", pyOfOptInt r.population_n),
   ("population_percentage", pyOfOptRat r.population_percentage)]

/-- src/schemas.py `ArmLevelSurvivalOutcome`, as the typed record produced
by a successful validation. -/
structure ArmLevelSurvivalOutcome where
  survival_outcome_id : Int
  trial_id : Option String
  trial_label : Option String
  arm_description : Option String
  population_type : String
  population_description : Option String
  endpoint_description : Option String
  endpoint_name : Option String
  endpoint_label : Option String
  assessment_type : Option String
  review_board : Option String
  review_criteria : Option String
  other_details : Option String
  arm_n : Option Int
  median_survival : Option String
  survival_rate : Option String
  events_n : Option Int
  assessment_denominator_n : Option Int
  p_value : Option Rat
  time_unit : Option String

/-- The declared field names of `ArmLevelSurvivalOutcome`, in declaration
order. -/
def survivalFieldNames : List String :=
  ["survival_outcome_id", "trial_id", "trial_label", "arm_description",
   "population_type", "population_description", "endpoint_description",
   "endpoint_name", "endpoint_label", "assessment_type", "review_board",
   "review_criteria", "other_details", "arm_n", "median_survival",
   "survival_rate", "events_n", "assessment_denominator_n", "p_value",
   "time_unit"]

/-- The per-field checks of `ArmLevelSurvivalOutcome.model_validate`: a
positive required `survival_outcome_id`, a required `population_type` in the
closed `PopulationType` enum, counts ≥ 0, `p_value` in [0,1], `time_unit` in
the closed `TimeUnit` enum or null, all other fields optional strings. -/
def survivalFieldChecks (d : PyDict) : Bool :=
  (vReqPosInt (dGet d "survival_outcome_id")).isSome &&
  (vOptStr (dGet d "trial_id")).isSome &&
  (vOptStr (dGet d "trial_label")).isSome &&
  (vOptStr (dGet d "arm_description")).isSome &&
  (vEnum PopulationTypeValues (dGet d "population_type")).isSome &&
  (vOptStr (dGet d "population_description")).isSome &&
  (vOptStr (dGet d "endpoint_description")).isSome &&
  (vOptStr (dGet d "endpoint_name")).isSome &&
  (vOptStr (dGet d "endpoint_label")).isSome &&
  (vOptStr (dGet d "assessment_type")).isSome &&
  (vOptStr (dGet d "review_board")).isSome &&
  (vOptStr (dGet d "review_criteria")).isSome &&
  (vOptStr (dGet d "other_details")).isSome &&
  (vOptNonnegInt (dGet d "arm_n")).isSome &&
  (vOptStr (dGet d "median_survival")).isSome &&
  (vOptStr (dGet d "survival_rate")).isSome &&
  (vOptNonnegInt (dGet d "events_n")).isSome &&
  (vOptNonnegInt (dGet d "assessment_denominator_n")).isSome &&
  (vOptRangeFloat 0 1 (dGet d "p_value")).isSome &&
  (vOptEnum TimeUnitValues (dGet d "time_unit")).isSome

/-- The typed record assembled from the checked fields (only meaningful when
`survivalFieldChecks` holds). -/
def survivalBuild (d : PyDict) : ArmLevelSurvivalOutcome where
  survival_outcome_id := (vReqPosInt (dGet d "survival_outcome_id")).getD 0
  trial_id := (vOptStr (dGet d "trial_id")).getD Option.none
  trial_label := (vOptStr (dGet d "trial_label")).getD Option.none
  arm_description := (vOptStr (dGet d "arm_description")).getD Option.none
  population_type := (vEnum PopulationTypeValues (dGet d "population_type")).getD ""
  population_description := (vOptStr (dGet d "population_description")).getD Option.none
  endpoint_description := (vOptStr (dGet d "endpoint_description")).getD Option.none
  endpoint_name := (vOptStr (dGet d "endpoint_name")).getD Option.none
  endpoint_label := (vOptStr (dGet d "endpoint_label")).getD Option.none
  assessment_type := (vOptStr (dGet d "assessment_type")).getD Option.none
  review_board := (vOptStr (dGet d "review_board")).getD Option.none
  review_criteria := (vOptStr (dGet d "review_criteria")).getD Option.none
  other_details := (vOptStr (dGet d "other_details")).getD Option.none
  arm_n := (vOptNonnegInt (dGet d "arm_n")).getD Option.none
  median_survival := (vOptStr (dGet d "median_survival")).getD Option.none
  survival_rate := (vOptStr (dGet d "survival_rate")).getD Option.none
  events_n := (vOptNonnegInt (dGet d "events_n")).getD Option.none
  assessment_denominator_n := (vOptNonnegInt (dGet d "assessment_denominator_n")).getD Option.none
  p_value := (vOptRangeFloat 0 1 (dGet d "p_value")).getD Option.none
  time_unit := (vOptEnum TimeUnitValues (dGet d "time_unit")).getD Option.none

/-- `ArmLevelSurvivalOutcome.model_validate`: reject unknown keys
(`extra="forbid"`), then apply every field check. -/
def validateArmLevelSurvivalOutcome (d : PyDict) : Option ArmLevelSurvivalOutcome :=
  if ((keysOf d).Nodup ∧ ∀ k ∈ keysOf d, k ∈ survivalFieldNames) ∧ survivalFieldChecks d = true then
    some (survivalBuild d)
  else Option.none



example :
    (validateBaselineCharacteristic
      [("baseline_id", PyVal.int 1), ("population_type", PyVal.str "Other")]).isSome := rfl
example :
    validateBaselineCharacteristic
      [("baseline_id", PyVal.int 0), ("population_type", PyVal.str "Other")] = Option.none := rfl
example :
    validateArmLevelSurvivalOutcome
      [("survival_outcome_id", PyVal.int 1), ("population_type", PyVal.str "Weird")] = Option.none := rfl

/-! ## FieldNormalizer (src/extractors/baseline.py, km_survival.py,
response_outcomes.py) -/

/-- `{k: r.get(k) for k in ALLOWED if k in r}`: keep only allow-listed keys
(the iteration order of the Python set literal is immaterial for a dict's
key-value semantics; the allow-list's source order is used here). -/
def filterAllowed (allowed : List String) (r : PyDict) : PyDict :=
  allowed.filterMap (fun k => (dGet r k).map (fun v => (k, v)))

/-- `ALLOWED_BC_KEYS` of `BaselineExtractor._clean_to_bc_only`. -/
def ALLOWED_BC_KEYS : List String :=
  ["baseline_id", "trial_id", "trial_label", "arm_key", "arm_description",
   "population_key", "population_type", "population_description",
   "baseline_parent", "parent_description", "baseline_category_label",
   "group_label", "group_text", "measure", "measure_value",
   "population_n", "population_percentage"]

/-- The closed set accepted verbatim by
`BaselineExtractor._normalize_population_type` (note: it omits the schema
enum's `"Baseline characteristic"`). -/
def popTypeNormAllowed : List String :=
  ["Overall", "Analysis set", "Cohort", "Subgroup", "Other"]

/-- `BaselineExtractor._normalize_population_type`: a string whose stripped
form is in the allowed set is kept (stripped); everything else becomes
`"Other"`. -/
def normalize_population_type (v : Option PyVal) : String :=
  match v with
  | some (PyVal.str s) => if pyStrip s ∈ popTypeNormAllowed then pyStrip s else "Other"
  | _ => "Other"

/-- The closed set accepted verbatim by
`BaselineExtractor._normalize_baseline_parent`. -/
def baselineParentNormAllowed : List String :=
  ["Overall", "Cohort", "Subgroup", "Other"]

/-- `BaselineExtractor._normalize_baseline_parent`: None stays None; a string
whose stripped form is in the allowed set is kept (stripped); everything
else becomes None. -/
def normalize_baseline_parent (v : Option PyVal) : Option String :=
  match v with
  | Option.none => Option.none
  | some PyVal.none => Option.none
  | some (PyVal.str s) =>
    if pyStrip s ∈ baselineParentNormAllowed then some (pyStrip s) else Option.none
  | some _ => Option.none

/-- The per-row body of `_clean_to_bc_only`'s loop: allow-list filtering,
enum normalization, numeric coercion (`rr.get(k)` yields Python None for an
absent key, hence the `getD PyVal.none`). -/
def cleanBcRow (r : PyDict) : PyDict :=
  let rr := filterAllowed ALLOWED_BC_KEYS r
  let rr := dSet rr "population_type"
    (PyVal.str (normalize_population_type (dGet rr "population_type")))
  let rr := dSet rr "baseline_parent"
    (pyOfOptStr (normalize_baseline_parent (dGet rr "baseline_parent")))
  let rr := dSet rr "population_n"
    (pyOfOptInt (to_int_or_none ((dGet rr "population_n").getD PyVal.none)))
  let rr := dSet rr "population_percentage"
    (pyOfOptRat (to_float_or_none ((dGet rr "population_percentage").getD PyVal.none)))
  rr

/-- `isinstance(bid, int) and bid > 0` on a row's stored id (an absent key
reads as Python None). -/
def hasValidId (r : PyDict) (key : String) : Bool :=
  match dGet r key with
  | some v => pyIsInstanceInt v && decide (0 < pyIntVal v)
  | Option.none => false

/-- The id-backfill loop `for i, rr in enumerate(cleaned_rows, start=1)`:
a row whose id is not an int instance (Python bool included) with positive
value receives its 1-based position; other rows are left untouched. -/
def backfillIds (key : String) : Nat → List PyDict → List PyDict
  | _, [] => []
  | i, r :: rs =>
    (if hasValidId r key then r else dSet r key (PyVal.int i)) :: backfillIds key (i + 1) rs

/-- The rows of `parsed.get("bc_types", [])` (a non-list value yields no
rows), with the loop's `isinstance(r, dict)` filter applied. -/
def bcRawRows (parsed : PyDict) : List PyDict :=
  let bc_raw := (dGet parsed "bc_types").getD (PyVal.list [])
  let rows := match bc_raw with | PyVal.list xs => xs | _ => []
  rows.filterMap (fun r => match r with | PyVal.dict rd => some rd | _ => Option.none)

/-- The cleaned rows of `_clean_to_bc_only` before id backfill. -/
def bcCleanedPre (parsed : PyDict) : List PyDict :=
  (bcRawRows parsed).map cleanBcRow

/-- `BaselineExtractor._clean_to_bc_only`: keep only `bc_types`, normalize
each dict row, then backfill `baseline_id` by 1-based position. -/
def clean_to_bc_only (parsed : PyDict) : PyDict :=
  [("bc_types", PyVal.list ((backfillIds "baseline_id" 1 (bcCleanedPre parsed)).map PyVal.dict))]

/-- The dict rows stored under `key` in a normalizer's output. -/
def dictRowsOf (d : PyDict) (key : String) : List PyDict :=
  match dGet d key with
  | some (PyVal.list xs) =>
    xs.filterMap (fun v => match v with | PyVal.dict dd => some dd | _ => Option.none)
  | _ => []

/-- Python truthiness, as used by `parsed.get(k, dflt) or dflt`. -/
def pyTruthy : PyVal → Bool
  | .none => false
  | .bool b => b
  | .int n => n != 0
  | .float q => q != 0
  | .str s => s != ""
  | .list xs => !xs.isEmpty
  | .dict xs => !xs.isEmpty

/-- `parsed.get(k, dflt) or dflt`: the default when the key is absent or the
stored value is falsy. -/
def pyGetOr (parsed : PyDict) (k : String) (dflt : PyVal) : PyVal :=
  match dGet parsed k with
  | Option.none => dflt
  | some w => if pyTruthy w then w else dflt

/-- `ALLOWED_TM_KEYS` shared by the KM and response normalizers. -/
def ALLOWED_TM_KEYS : List String := ["trial_id", "phase", "study_name"]

/-- `ALLOWED_OUTCOME_KEYS` of `KMSurvivalExtractor._clean_to_survival_only`. -/
def ALLOWED_SURVIVAL_OUTCOME_KEYS : List String :=
  ["survival_outcome_id", "trial_id", "trial_label", "arm_description",
   "population_type", "population_description", "endpoint_description",
   "endpoint_name", "endpoint_label", "assessment_type", "review_board",
   "review_criteria", "other_details", "arm_n", "median_survival",
   "survival_rate", "events_n", "assessment_denominator_n",
   "p_value", "time_unit"]

/-- `KMSurvivalExtractor._clean_to_survival_only`: allow-list filtering of
`trial_metadata` and of each dict row of `arm_level_survival_outcomes` —
no enum normalization, no numeric coercion and no id backfill happen here.
`Option.none` models the `AttributeError` raised when `trial_metadata` holds
a truthy non-dict (the `or {}` only replaces falsy values). -/
def clean_to_survival_only (parsed : PyDict) : Option PyDict :=
  let tm_raw := pyGetOr parsed "trial_metadata" (PyVal.dict [])
  let rows_raw := pyGetOr parsed "arm_level_survival_outcomes" (PyVal.list [])
  match tm_raw with
  | PyVal.dict tmd =>
    let tm := filterAllowed ALLOWED_TM_KEYS tmd
    let rows := match rows_raw with | PyVal.list xs => xs | _ => []
    let cleaned := rows.filterMap (fun r =>
      match r with
      | PyVal.dict rd => some (filterAllowed ALLOWED_SURVIVAL_OUTCOME_KEYS rd)
      | _ => Option.none)
    some [("trial_metadata", PyVal.dict tm),
          ("arm_level_survival_outcomes", PyVal.list (cleaned.map PyVal.dict))]
  | _ => Option.none

/-- `ALLOWED_OUTCOME_KEYS` of
`ResponseOutcomesExtractor._clean_to_response_only`. -/
def ALLOWED_RESPONSE_OUTCOME_KEYS : List String :=
  ["response_outcome_id", "trial_id", "trial_label", "arm_description",
   "population_type", "population_description", "assessment_type",
   "review_board", "review_criteria", "other_details", "arm_n",
   "assessment_denominator_n", "response_type_name",
   "response_metric_class", "result"]

/-- `ResponseOutcomesExtractor._clean_to_response_only`: allow-list filtering
only, same shape as the KM normalizer — again no enum normalization, no
numeric coercion and no id backfill. -/
def clean_to_response_only (parsed : PyDict) : Option PyDict :=
  let tm_raw := pyGetOr parsed "trial_metadata" (PyVal.dict [])
  let rows_raw := pyGetOr parsed "arm_level_response_outcomes" (PyVal.list [])
  match tm_raw with
  | PyVal.dict tmd =>
    let tm := filterAllowed ALLOWED_TM_KEYS tmd
    let rows := match rows_raw with | PyVal.list xs => xs | _ => []
    let cleaned := rows.filterMap (fun r =>
      match r with
      | PyVal.dict rd => some (filterAllowed ALLOWED_RESPONSE_OUTCOME_KEYS rd)
      | _ => Option.none)
    some [("trial_metadata", PyVal.dict tm),
          ("arm_level_response_outcomes", PyVal.list (cleaned.map PyVal.dict))]
  | _ => Option.none

example :
    dictRowsOf (clean_to_bc_only [("bc_types", PyVal.list [PyVal.dict []])]) "bc_types" =
      [[("population_type", PyVal.str "Other"), ("baseline_parent", PyVal.none),
        ("population_n", PyVal.none), ("population_percentage", PyVal.none),
        ("baseline_id", PyVal.int 1)]] := rfl

/-! ## StageOrchestrator (src/pipeline.py, src/main.py)

Each extractor call is an external-service interaction; its outcome is
modelled as an `Except String` value (error = any raised exception, with its
message).  Stage 2's three thread-pool tasks are deterministic functions of
their own outcomes: the fan-in loop stores each completed task's result (or
None on exception) under its task name, and only returns once every future
has completed, which the join over all three outcomes models.  The number of
`executor.submit` calls made for an image is tracked explicitly. -/

/-- The three Stage 2 task outcomes for one image, by task name. -/
structure StageTwoOutcomes (β : Type) where
  km_survival : Except String β
  baseline : Except String β
  response_outcomes : Except String β

/-- A completed task's slot value: its result, or None when it raised. -/
def taskSlot {β : Type} : Except String β → Option β
  | Except.ok b => some b
  | Except.error _ => Option.none

/-- `PosterPipeline._run_parallel_extractions`: the per-image result map of
the three Stage 2 domains (assembled only after all three futures have
completed), paired with the number of tasks submitted to the pool. -/
def run_parallel_extractions {β : Type} (t : StageTwoOutcomes β) :
    (Option β × Option β × Option β) × Nat :=
  ((taskSlot t.km_survival, taskSlot t.baseline, taskSlot t.response_outcomes), 3)

/-- The success-shaped per-image result dict of `PosterPipeline.process_image`. -/
structure ImageSuccess (α β : Type) where
  image_id : String
  image_path : String
  pooled_population : α
  km_survival : Option β
  baseline : Option β
  response_outcomes : Option β

/-- One entry of the aggregated results of `process_all_images`: either the
success-shaped dict, or the distinct fatal shape
`{"image_id", "image_path", "error"}` with no domain-result map. -/
inductive ImageResult (α β : Type) where
  | completed (r : ImageSuccess α β)
  | fatal (image_id image_path error : String)

/-- `PosterPipeline.process_image`, with the Stage 1 outcome and the Stage 2
task outcomes passed explicitly: a Stage 1 exception propagates out before
any Stage 2 task is submitted; on Stage 1 success the three Stage 2 tasks
are dispatched and their slots update the result dict.  The second component
counts the Stage 2 tasks submitted for this image. -/
def process_image {α β : Type} (image_path image_id : String)
    (stage1 : Except String α) (stage2 : StageTwoOutcomes β) :
    Except String (ImageSuccess α β) × Nat :=
  match stage1 with
  | Except.error e => (Except.error e, 0)
  | Except.ok pooled =>
    let pr := run_parallel_extractions stage2
    (Except.ok
      { image_id := image_id
        image_path := image_path
        pooled_population := pooled
        km_survival := pr.1.1
        baseline := pr.1.2.1
        response_outcomes := pr.1.2.2 }, pr.2)

/-- One image's worth of input to `process_all_images`: path, id, and the
outcomes its extractor calls would produce. -/
structure ImageJob (α β : Type) where
  image_path : String
  image_id : String
  stage1 : Except String α
  stage2 : StageTwoOutcomes β

/-- `PosterPipeline.process_all_images`: the strictly sequential outer loop;
a `process_image` exception is caught and recorded as the distinct fatal
shape. -/
def process_all_images {α β : Type} (jobs : List (ImageJob α β)) :
    List (ImageResult α β) :=
  jobs.map (fun j =>
    match (process_image j.image_path j.image_id j.stage1 j.stage2).1 with
    | Except.ok r => ImageResult.completed r
    | Except.error e => ImageResult.fatal j.image_id j.image_path e)

/-- Is a result entry the fatal shape (it carries an `"error"` key)? -/
def isFatal {α β : Type} : ImageResult α β → Bool
  | ImageResult.fatal _ _ _ => true
  | ImageResult.completed _ => false

/-- `main`'s failed-image count: results carrying an `"error"` key. -/
def countFailed {α β : Type} (rs : List (ImageResult α β)) : Nat :=
  rs.countP isFatal

/-- `main`'s return value: 0 when no image failed, else 1. -/
def mainExitCode {α β : Type} (rs : List (ImageResult α β)) : Nat :=
  if countFailed rs = 0 then 0 else 1

/-! ## Supporting lemmas about the dict model -/

theorem dGet_nil (k : String) : dGet [] k = Option.none := rfl

theorem dGet_cons (p : String × PyVal) (tl : PyDict) (k : String) :
    dGet (p :: tl) k = if p.1 == k then some p.2 else dGet tl k := by
  by_cases h : p.1 == k <;> simp [dGet, List.find?, h]

theorem dGet_dSet_self (d : PyDict) (k : String) (v : PyVal) :
    dGet (dSet d k v) k = some v := by
  induction d with
  | nil => simp [dSet, dGet_cons]
  | cons p tl ih =>
    by_cases h : p.1 == k
    · simp [dSet, h, dGet_cons]
    · simp [dSet, h, dGet_cons, ih]

theorem dGet_dSet_ne (d : PyDict) (k k' : String) (v : PyVal) (h : k' ≠ k) :
    dGet (dSet d k v) k' = dGet d k' := by
  have hk : (k == k') = false := by simp [Ne.symm h]
  induction d with
  | nil => simp [dSet, dGet_cons, dGet_nil, hk]
  | cons p tl ih =>
    by_cases hp : p.1 == k
    · have hpk : p.1 = k := by simpa using hp
      simp [dSet, hp, dGet_cons, hk, hpk]
    · simp [dSet, hp, dGet_cons, ih]

theorem dGet_eq_none_of_not_mem_keys (d : PyDict) (k : String)
    (h : k ∉ keysOf d) : dGet d k = Option.none := by
  induction d with
  | nil => rfl
  | cons p tl ih =>
    have h1 : k ≠ p.1 := fun hc => h (List.mem_cons.mpr (Or.inl hc))
    have h2 : k ∉ keysOf tl := fun hc => h (List.mem_cons.mpr (Or.inr hc))
    simp [dGet_cons, show (p.1 == k) = false by simp [Ne.symm h1], ih h2]

theorem dGet_of_mem_nodup (d : PyDict) (k : String) (v : PyVal)
    (hnd : (keysOf d).Nodup) (hmem : (k, v) ∈ d) : dGet d k = some v := by
  induction d with
  | nil => cases hmem
  | cons p tl ih =>
    have hnd2 : (p.1 :: keysOf tl).Nodup := hnd
    have hh := List.nodup_cons.mp hnd2
    rcases List.mem_cons.mp hmem with heq | htl
    · subst heq; simp [dGet_cons]
    · have hk : k ∈ keysOf tl := List.mem_map_of_mem Prod.fst htl
      have hne : p.1 ≠ k := fun hcon => hh.1 (hcon ▸ hk)
      simp [dGet_cons, show (p.1 == k) = false by simp [hne], ih hh.2 htl]

theorem dGet_filterAllowed_not_mem (allowed : List String) (r : PyDict)
    (k : String) (h : k ∉ allowed) : dGet (filterAllowed allowed r) k = Option.none := by
  induction allowed with
  | nil => rfl
  | cons a tl ih =>
    simp at h
    cases hga : dGet r a with
    | none => simpa [filterAllowed, hga] using ih h.2
    | some v =>
      simpa [filterAllowed, hga, dGet_cons, show (a == k) = false by simp [Ne.symm h.1]]
        using ih h.2

theorem filterAllowed_cons_none (a : String) (tl : List String) (r : PyDict)
    (hga : dGet r a = Option.none) :
    filterAllowed (a :: tl) r = filterAllowed tl r := by
  simp [filterAllowed, hga]

theorem filterAllowed_cons_some (a : String) (tl : List String) (r : PyDict)
    (v : PyVal) (hga : dGet r a = some v) :
    filterAllowed (a :: tl) r = (a, v) :: filterAllowed tl r := by
  simp [filterAllowed, hga]

theorem dGet_filterAllowed (allowed : List String) (r : PyDict) (k : String)
    (hnd : allowed.Nodup) (hk : k ∈ allowed) :
    dGet (filterAllowed allowed r) k = dGet r k := by
  induction allowed with
  | nil => cases hk
  | cons a tl ih =>
    have hh := List.nodup_cons.mp hnd
    rcases List.mem_cons.mp hk with rfl | htl
    · cases hga : dGet r k with
      | none =>
        rw [filterAllowed_cons_none k tl r hga]
        exact dGet_filterAllowed_not_mem tl r k hh.1
      | some v => rw [filterAllowed_cons_some k tl r v hga, dGet_cons]; simp [hga]
    · have hne : a ≠ k := fun hcon => hh.1 (hcon ▸ htl)
      cases hga : dGet r a with
      | none => rw [filterAllowed_cons_none a tl r hga]; exact ih hh.2 htl
      | some v =>
        rw [filterAllowed_cons_some a tl r v hga, dGet_cons]
        simp only [show (a == k) = false by simp [hne], if_false]
        exact ih hh.2 htl

/-! ## Supporting lemmas about id backfill -/

theorem backfillIds_length (key : String) (i : Nat) (rs : List PyDict) :
    (backfillIds key i rs).length = rs.length := by
  induction rs generalizing i with
  | nil => rfl
  | cons r tl ih => simp [backfillIds, ih]

theorem backfillIds_getElem? (key : String) (i j : Nat) (rs : List PyDict) :
    (backfillIds key i rs)[j]? =
      (rs[j]?).map (fun r =>
        if hasValidId r key then r else dSet r key (PyVal.int (i + j))) := by
  induction rs generalizing i j with
  | nil => simp [backfillIds]
  | cons r tl ih =>
    cases j with
    | zero => simp [backfillIds]
    | succ j =>
      have harith : ((i + 1 : Nat) : Int) + (j : Int) = (i : Int) + ((j + 1 : Nat) : Int) := by
        push_cast; ring
      simp only [backfillIds, List.getElem?_cons_succ, ih (i + 1) j, harith]

theorem mem_backfillIds (key : String) (i : Nat) (rs : List PyDict)
    (row : PyDict) (h : row ∈ backfillIds key i rs) :
    ∃ r ∈ rs, row = r ∨ ∃ m : Int, row = dSet r key (PyVal.int m) := by
  induction rs generalizing i with
  | nil => cases h
  | cons r tl ih =>
    rcases List.mem_cons.mp h with heq | htl
    · refine ⟨r, List.mem_cons_self r tl, ?_⟩
      by_cases hv : hasValidId r key
      · left; simpa [hv] using heq
      · right; exact ⟨i, by simpa [hv] using heq⟩
    · obtain ⟨r0, hr0, hcase⟩ := ih (i + 1) htl
      exact ⟨r0, List.mem_cons_of_mem r hr0, hcase⟩

theorem backfillIds_id_valid (key : String) (i : Nat) (rs : List PyDict)
    (row : PyDict) (hi : 1 ≤ i) (h : row ∈ backfillIds key i rs) :
    ∃ v, dGet row key = some v ∧ pyIsInstanceInt v = true ∧ 1 ≤ pyIntVal v := by
  induction rs generalizing i with
  | nil => cases h
  | cons r tl ih =>
    rcases List.mem_cons.mp h with heq | htl
    · by_cases hv : hasValidId r key
      · have heq2 : row = r := by simpa [hv] using heq
        subst heq2
        unfold hasValidId at hv
        cases hg : dGet row key with
        | none => rw [hg] at hv; cases hv
        | some v =>
          rw [hg] at hv
          simp only [Bool.and_eq_true, decide_eq_true_eq] at hv
          exact ⟨v, rfl, hv.1, by omega⟩
      · have heq2 : row = dSet r key (PyVal.int i) := by simpa [hv] using heq
        subst heq2
        refine ⟨PyVal.int i, dGet_dSet_self r key _, rfl, ?_⟩
        simp [pyIntVal]; omega
    · exact ih (i + 1) (by omega) htl

theorem backfillIds_ids_shape (key : String) (i : Nat) (rs : List PyDict)
    (h : ∀ r ∈ rs, hasValidId r key = false) (x : Option PyVal)
    (hx : x ∈ (backfillIds key i rs).map (fun r => dGet r key)) :
    ∃ m : Nat, i ≤ m ∧ x = some (PyVal.int m) := by
  induction rs generalizing i with
  | nil => cases hx
  | cons r tl ih =>
    have hr := h r (List.mem_cons_self r tl)
    have htl : ∀ r0 ∈ tl, hasValidId r0 key = false :=
      fun r0 hr0 => h r0 (List.mem_cons_of_mem r hr0)
    simp only [backfillIds, hr, Bool.false_eq_true, if_false, List.map_cons,
      dGet_dSet_self, List.mem_cons] at hx
    rcases hx with rfl | hx
    · exact ⟨i, le_refl i, rfl⟩
    · obtain ⟨m, hm, rfl⟩ := ih (i + 1) htl hx
      exact ⟨m, by omega, rfl⟩

theorem backfillIds_ids_nodup (key : String) (i : Nat) (rs : List PyDict)
    (h : ∀ r ∈ rs, hasValidId r key = false) :
    ((backfillIds key i rs).map (fun r => dGet r key)).Nodup := by
  induction rs generalizing i with
  | nil => simp [backfillIds]
  | cons r tl ih =>
    have hr := h r (List.mem_cons_self r tl)
    have htl : ∀ r0 ∈ tl, hasValidId r0 key = false :=
      fun r0 hr0 => h r0 (List.mem_cons_of_mem r hr0)
    simp only [backfillIds, hr, Bool.false_eq_true, if_false, List.map_cons,
      dGet_dSet_self]
    refine List.nodup_cons.mpr ⟨?_, ih (i + 1) htl⟩
    intro hcon
    obtain ⟨m, hm, heq⟩ := backfillIds_ids_shape key (i + 1) tl htl _ hcon
    have : (i : Int) = (m : Int) := by
      have := Option.some.inj heq
      exact PyVal.int.inj this
    omega

/-! ## Supporting lemmas about the baseline normalizer -/

theorem dictRows_map_dict (ds : List PyDict) :
    (ds.map PyVal.dict).filterMap
      (fun v => match v with | PyVal.dict dd => some dd | _ => Option.none) = ds := by
  induction ds with
  | nil => rfl
  | cons d tl ih => simp [ih]

theorem dictRowsOf_clean_to_bc_only (parsed : PyDict) :
    dictRowsOf (clean_to_bc_only parsed) "bc_types" =
      backfillIds "baseline_id" 1 (bcCleanedPre parsed) := by
  exact dictRows_map_dict (backfillIds "baseline_id" 1 (bcCleanedPre parsed))

theorem cleanBcRow_population_type (r : PyDict) :
    dGet (cleanBcRow r) "population_type" =
      some (PyVal.str (normalize_population_type
        (dGet (filterAllowed ALLOWED_BC_KEYS r) "population_type"))) := by
  unfold cleanBcRow
  rw [dGet_dSet_ne _ _ _ _ (by decide), dGet_dSet_ne _ _ _ _ (by decide),
    dGet_dSet_ne _ _ _ _ (by decide), dGet_dSet_self]

theorem cleanBcRow_baseline_parent (r : PyDict) :
    dGet (cleanBcRow r) "baseline_parent" =
      some (pyOfOptStr (normalize_baseline_parent
        (dGet (filterAllowed ALLOWED_BC_KEYS r) "baseline_parent"))) := by
  unfold cleanBcRow
  rw [dGet_dSet_ne _ _ _ _ (by decide), dGet_dSet_ne _ _ _ _ (by decide),
    dGet_dSet_self, dGet_dSet_ne _ _ _ _ (by decide)]

theorem cleanBcRow_baseline_id (r : PyDict) :
    dGet (cleanBcRow r) "baseline_id" = dGet r "baseline_id" := by
  unfold cleanBcRow
  rw [dGet_dSet_ne _ _ _ _ (by decide), dGet_dSet_ne _ _ _ _ (by decide),
    dGet_dSet_ne _ _ _ _ (by decide), dGet_dSet_ne _ _ _ _ (by decide),
    dGet_filterAllowed _ _ _ (by decide) (by decide)]

theorem normalize_population_type_str (s : String) :
    normalize_population_type (some (PyVal.str s)) =
      if pyStrip s ∈ popTypeNormAllowed then pyStrip s else "Other" := rfl

theorem normalize_population_type_mem (v : Option PyVal) :
    normalize_population_type v ∈ popTypeNormAllowed := by
  rcases v with _ | w
  · decide
  · cases w <;> try exact (by decide : "Other" ∈ popTypeNormAllowed)
    case str s =>
      rw [normalize_population_type_str]
      by_cases h : pyStrip s ∈ popTypeNormAllowed
      · rw [if_pos h]; exact h
      · rw [if_neg h]; decide

theorem popTypeNormAllowed_subset (s : String) (h : s ∈ popTypeNormAllowed) :
    s ∈ PopulationTypeValues := by
  simp only [popTypeNormAllowed, List.mem_cons, List.not_mem_nil, or_false] at h
  rcases h with rfl | rfl | rfl | rfl | rfl <;> decide

theorem normalize_baseline_parent_str (s : String) :
    normalize_baseline_parent (some (PyVal.str s)) =
      if pyStrip s ∈ baselineParentNormAllowed then some (pyStrip s) else Option.none := rfl

theorem normalize_baseline_parent_mem (v : Option PyVal) (x : String)
    (h : normalize_baseline_parent v = some x) : x ∈ baselineParentNormAllowed := by
  rcases v with _ | w
  · cases h
  · cases w <;> try cases h
    case str s =>
      rw [normalize_baseline_parent_str] at h
      by_cases hm : pyStrip s ∈ baselineParentNormAllowed
      · rw [if_pos hm] at h
        cases h
        exact hm
      · rw [if_neg hm] at h
        cases h

theorem baselineParent_norm_eq_schema :
    baselineParentNormAllowed = BaselineParentValues := rfl

/-- Every row of the baseline normalizer's output is either a cleaned row or
a cleaned row with `baseline_id` overwritten; any field other than
`baseline_id` therefore reads as on the cleaned row. -/
theorem mem_bc_rows (parsed : PyDict) (row : PyDict)
    (h : row ∈ dictRowsOf (clean_to_bc_only parsed) "bc_types") (k : String)
    (hk : k ≠ "baseline_id") :
    ∃ r ∈ bcRawRows parsed, dGet row k = dGet (cleanBcRow r) k := by
  rw [dictRowsOf_clean_to_bc_only] at h
  obtain ⟨r, hr, hcase⟩ := mem_backfillIds "baseline_id" 1 (bcCleanedPre parsed) row h
  obtain ⟨r0, hr0, hr0eq⟩ := List.mem_map.mp hr
  rcases hcase with rfl | ⟨m, rfl⟩
  · exact ⟨r0, hr0, by rw [hr0eq]⟩
  · exact ⟨r0, hr0, by rw [dGet_dSet_ne _ _ _ _ hk, hr0eq]⟩

/-- C9: the baseline population-type normalizer accepts verbatim only
{Overall, Analysis set, Cohort, Subgroup, Other}; although
"Baseline characteristic" is a member of the schema's closed PopulationType
enum, the normalizer always rewrites it to "Other", so no normalized (hence
no validated) baseline row carries population_type = "Baseline
characteristic". -/
theorem C9_population_type_excludes_baseline_characteristic :
    (∀ v, normalize_population_type v ∈ popTypeNormAllowed) ∧
    (∀ s : String, pyStrip s ∈ popTypeNormAllowed →
      normalize_population_type (some (PyVal.str s)) = pyStrip s) ∧
    ("Baseline characteristic" ∈ PopulationTypeValues) ∧
    ("Baseline characteristic" ∉ popTypeNormAllowed) ∧
    (normalize_population_type (some (PyVal.str "Baseline characteristic")) = "Other") ∧
    (∀ v, normalize_population_type v ≠ "Baseline characteristic") ∧
    (∀ parsed row, row ∈ dictRowsOf (clean_to_bc_only parsed) "bc_types" →
      dGet row "population_type" ≠ some (PyVal.str "Baseline characteristic")) := by
  have hmem := normalize_population_type_mem
  have hne : ∀ v, normalize_population_type v ≠ "Baseline characteristic" := by
    intro v hcon
    have := hmem v
    rw [hcon] at this
    exact (by decide : "Baseline characteristic" ∉ popTypeNormAllowed) this
  refine ⟨hmem, ?_, by decide, by decide, by decide, hne, ?_⟩
  · intro s h
    simp [normalize_population_type, h]
  · intro parsed row hrow hcon
    obtain ⟨r, _, hread⟩ := mem_bc_rows parsed row hrow "population_type" (by decide)
    rw [hread, cleanBcRow_population_type] at hcon
    have := Option.some.inj hcon
    exact hne _ (PyVal.str.inj this)

/-- C9 witness: on a concrete row carrying the schema-enum member
"Baseline characteristic", the normalizer substitutes "Other". -/
theorem C9_witness :
    pyStrip "Overall" ∈ popTypeNormAllowed ∧
    normalize_population_type (some (PyVal.str "Overall")) = pyStrip "Overall" ∧
    (let parsed : PyDict :=
      [("bc_types", PyVal.list
        [PyVal.dict [("population_type", PyVal.str "Baseline characteristic")]])]
     let row : PyDict :=
      [("population_type", PyVal.str "Other"), ("baseline_parent", PyVal.none),
       ("population_n", PyVal.none), ("population_percentage", PyVal.none),
       ("baseline_id", PyVal.int 1)]
     row ∈ dictRowsOf (clean_to_bc_only parsed) "bc_types" ∧
       dGet row "population_type" ≠ some (PyVal.str "Baseline characteristic")) := by
  have hrows : dictRowsOf (clean_to_bc_only
      [("bc_types", PyVal.list
        [PyVal.dict [("population_type", PyVal.str "Baseline characteristic")]])])
      "bc_types" =
      [[("population_type", PyVal.str "Other"), ("baseline_parent", PyVal.none),
        ("population_n", PyVal.none), ("population_percentage", PyVal.none),
        ("baseline_id", PyVal.int 1)]] := rfl
  have hmem2 : [("population_type", PyVal.str "Other"), ("baseline_parent", PyVal.none),
      ("population_n", PyVal.none), ("population_percentage", PyVal.none),
      ("baseline_id", PyVal.int 1)] ∈ dictRowsOf (clean_to_bc_only
      [("bc_types", PyVal.list
        [PyVal.dict [("population_type", PyVal.str "Baseline characteristic")]])])
      "bc_types" := by
    rw [hrows]
    exact List.mem_singleton.mpr rfl
  exact ⟨by decide,
    (C9_population_type_excludes_baseline_characteristic).2.1 "Overall" (by decide),
    hmem2,
    (C9_population_type_excludes_baseline_characteristic).2.2.2.2.2.2 _ _ hmem2⟩

/-- The row the baseline normalizer produces from an empty input row: the
five always-set fields, nothing else. -/
def bcDefaultRow : PyDict :=
  [("population_type", PyVal.str "Other"), ("baseline_parent", PyVal.none),
   ("population_n", PyVal.none), ("population_percentage", PyVal.none),
   ("baseline_id", PyVal.int 1)]

/-- C1 (amended): in the baseline domain, enum normalization runs before
validation, so the enum-typed fields (`population_type`, `baseline_parent`)
of every row the baseline normalizer emits pass the validator's closed-enum
checks — they can never be the cause of a validation failure. -/
theorem C1_baseline_enum_fields_never_fail_validation (parsed : PyDict)
    (row : PyDict) (h : row ∈ dictRowsOf (clean_to_bc_only parsed) "bc_types") :
    (∃ t ∈ PopulationTypeValues, dGet row "population_type" = some (PyVal.str t)) ∧
    (vEnum PopulationTypeValues (dGet row "population_type")).isSome = true ∧
    (vOptEnum BaselineParentValues (dGet row "baseline_parent")).isSome = true := by
  obtain ⟨r, hr, hpt⟩ := mem_bc_rows parsed row h "population_type" (by decide)
  obtain ⟨r2, hr2, hbp⟩ := mem_bc_rows parsed row h "baseline_parent" (by decide)
  rw [hpt, cleanBcRow_population_type]
  rw [hbp, cleanBcRow_baseline_parent]
  have htmem : normalize_population_type
      (dGet (filterAllowed ALLOWED_BC_KEYS r) "population_type") ∈ PopulationTypeValues :=
    popTypeNormAllowed_subset _ (normalize_population_type_mem _)
  refine ⟨⟨_, htmem, rfl⟩, by simp [vEnum, htmem], ?_⟩
  cases hnb : normalize_baseline_parent
      (dGet (filterAllowed ALLOWED_BC_KEYS r2) "baseline_parent") with
  | none => rfl
  | some x =>
    have hx : x ∈ BaselineParentValues :=
      baselineParent_norm_eq_schema ▸ normalize_baseline_parent_mem _ _ hnb
    simp [pyOfOptStr, vOptEnum, hx]

/-- C1 witness: the theorem applied to the concrete normalizer run on
`{"bc_types": [{}]}`. -/
theorem C1_witness :
    (vEnum PopulationTypeValues (dGet bcDefaultRow "population_type")).isSome = true ∧
    (vOptEnum BaselineParentValues (dGet bcDefaultRow "baseline_parent")).isSome = true := by
  have hrows : dictRowsOf (clean_to_bc_only
      [("bc_types", PyVal.list [PyVal.dict []])]) "bc_types" = [bcDefaultRow] := rfl
  have hm : bcDefaultRow ∈ dictRowsOf (clean_to_bc_only
      [("bc_types", PyVal.list [PyVal.dict []])]) "bc_types" := by
    rw [hrows]; exact List.mem_singleton.mpr rfl
  exact ⟨(C1_baseline_enum_fields_never_fail_validation _ _ hm).2.1,
    (C1_baseline_enum_fields_never_fail_validation _ _ hm).2.2⟩

/-- A Stage 2 KM model response whose outcome row carries an out-of-enum
`population_type`. -/
def kmWeirdParsed : PyDict :=
  [("trial_metadata", PyVal.dict []),
   ("arm_level_survival_outcomes", PyVal.list
     [PyVal.dict [("survival_outcome_id", PyVal.int 1),
                  ("population_type", PyVal.str "Weird")]])]

/-- C1 counterexample: the KM-survival normalizer passes the out-of-enum
value "Weird" through unchanged (it performs no enum normalization), and the
KM row validator then rejects the row — so it is not true that in every
domain enum fields are replaced by a fallback before validation and never
cause a validation failure. -/
theorem C1_counterexample :
    clean_to_survival_only kmWeirdParsed =
      some [("trial_metadata", PyVal.dict []),
            ("arm_level_survival_outcomes", PyVal.list
              [PyVal.dict [("survival_outcome_id", PyVal.int 1),
                           ("population_type", PyVal.str "Weird")]])] ∧
    validateArmLevelSurvivalOutcome
      [("survival_outcome_id", PyVal.int 1),
       ("population_type", PyVal.str "Weird")] = Option.none ∧
    (vEnum PopulationTypeValues (some (PyVal.str "Weird"))).isSome = false :=
  ⟨rfl, rfl, rfl⟩

/-- C2 (amended): the baseline normalizer's id backfill — cleaning leaves a
row's incoming `baseline_id` untouched, the output keeps one row per cleaned
row in order, a row whose id is a positive int instance is kept unchanged,
and a row whose id is missing or not a positive int instance gets its
1-based position in the final row order.  (The KM and response normalizers
have no such backfill; see the counterexample.) -/
theorem C2_baseline_id_backfill (parsed : PyDict) :
    (dictRowsOf (clean_to_bc_only parsed) "bc_types").length =
      (bcCleanedPre parsed).length ∧
    (∀ r : PyDict, dGet (cleanBcRow r) "baseline_id" = dGet r "baseline_id") ∧
    ∀ (j : Nat) (r : PyDict), (bcCleanedPre parsed)[j]? = some r →
      ∃ row, (dictRowsOf (clean_to_bc_only parsed) "bc_types")[j]? = some row ∧
        (hasValidId r "baseline_id" = true → row = r) ∧
        (hasValidId r "baseline_id" = false →
          row = dSet r "baseline_id" (PyVal.int (j + 1)) ∧
          dGet row "baseline_id" = some (PyVal.int (j + 1))) := by
  refine ⟨?_, cleanBcRow_baseline_id, ?_⟩
  · rw [dictRowsOf_clean_to_bc_only, backfillIds_length]
  · intro j r hj
    rw [dictRowsOf_clean_to_bc_only]
    rw [backfillIds_getElem? "baseline_id" 1 j (bcCleanedPre parsed), hj]
    by_cases hv : hasValidId r "baseline_id"
    · refine ⟨r, by simp [hv], fun _ => rfl, fun hcon => by rw [hv] at hcon; cases hcon⟩
    · have hv' : hasValidId r "baseline_id" = false := by
        simpa using hv
      refine ⟨dSet r "baseline_id" (PyVal.int (1 + j)), by simp [hv'], ?_, ?_⟩
      · intro hcon; rw [hcon] at hv'; cases hv'
      · intro _
        have harith : (1 + (j : Int)) = ((j : Int) + 1) := by ring
        rw [harith]
        exact ⟨rfl, dGet_dSet_self _ _ _⟩

/-- C2 witness: on `{"bc_types": [{"baseline_id": "x"}]}` the id is not a
positive int instance, so the first row is assigned id 1. -/
theorem C2_witness :
    ∃ row, (dictRowsOf (clean_to_bc_only
        [("bc_types", PyVal.list [PyVal.dict [("baseline_id", PyVal.str "x")]])])
        "bc_types")[0]? = some row ∧
      dGet row "baseline_id" = some (PyVal.int 1) := by
  obtain ⟨row, h1, _, h3⟩ :=
    (C2_baseline_id_backfill
      [("bc_types", PyVal.list [PyVal.dict [("baseline_id", PyVal.str "x")]])]).2.2
      0 (cleanBcRow [("baseline_id", PyVal.str "x")]) rfl
  exact ⟨row, h1, (h3 rfl).2⟩

/-- An input row list for the KM and response domains whose rows carry no id
at all. -/
def noIdSurvivalParsed : PyDict :=
  [("arm_level_survival_outcomes", PyVal.list
    [PyVal.dict [("trial_label", PyVal.str "A")]])]

/-- See `noIdSurvivalParsed`. -/
def noIdResponseParsed : PyDict :=
  [("arm_level_response_outcomes", PyVal.list
    [PyVal.dict [("trial_label", PyVal.str "B")]])]

/-- C2 counterexample: the KM and response normalizers leave a missing
sequential id missing — the first row of the cleaned output carries no
`survival_outcome_id` / `response_outcome_id` instead of the claimed 1-based
position. -/
theorem C2_counterexample :
    (clean_to_survival_only noIdSurvivalParsed).map
        (fun d => dictRowsOf d "arm_level_survival_outcomes") =
      some [[("trial_label", PyVal.str "A")]] ∧
    dGet [("trial_label", PyVal.str "A")] "survival_outcome_id" = Option.none ∧
    (clean_to_response_only noIdResponseParsed).map
        (fun d => dictRowsOf d "arm_level_response_outcomes") =
      some [[("trial_label", PyVal.str "B")]] ∧
    dGet [("trial_label", PyVal.str "B")] "response_outcome_id" = Option.none :=
  ⟨rfl, rfl, rfl, rfl⟩

/-- C6 (amended): every sequential id the baseline normalizer emits is a
positive integer, and when no incoming row already carries a valid positive
id the assigned ids (the 1-based positions) are pairwise distinct; a
pre-existing valid id can however collide with a backfilled position, so
uniqueness does not hold unconditionally (see the counterexample). -/
theorem C6_baseline_ids_positive_and_unique_when_assigned (parsed : PyDict) :
    (∀ row ∈ dictRowsOf (clean_to_bc_only parsed) "bc_types",
      ∃ v, dGet row "baseline_id" = some v ∧ pyIsInstanceInt v = true ∧
        1 ≤ pyIntVal v) ∧
    ((∀ r ∈ bcCleanedPre parsed, hasValidId r "baseline_id" = false) →
      ((dictRowsOf (clean_to_bc_only parsed) "bc_types").map
        (fun r => dGet r "baseline_id")).Nodup) := by
  constructor
  · intro row hrow
    rw [dictRowsOf_clean_to_bc_only] at hrow
    exact backfillIds_id_valid "baseline_id" 1 (bcCleanedPre parsed) row
      (le_refl 1) hrow
  · intro h
    rw [dictRowsOf_clean_to_bc_only]
    exact backfillIds_ids_nodup "baseline_id" 1 (bcCleanedPre parsed) h

/-- C6 witness: two id-less rows receive the distinct ids 1 and 2. -/
theorem C6_witness :
    (∀ r ∈ bcCleanedPre [("bc_types", PyVal.list [PyVal.dict [], PyVal.dict []])],
      hasValidId r "baseline_id" = false) ∧
    ((dictRowsOf (clean_to_bc_only
        [("bc_types", PyVal.list [PyVal.dict [], PyVal.dict []])]) "bc_types").map
      (fun r => dGet r "baseline_id")).Nodup := by
  have h : ∀ r ∈ bcCleanedPre
      [("bc_types", PyVal.list [PyVal.dict [], PyVal.dict []])],
      hasValidId r "baseline_id" = false := by
    intro r hr
    have : bcCleanedPre [("bc_types", PyVal.list [PyVal.dict [], PyVal.dict []])] =
        [cleanBcRow [], cleanBcRow []] := rfl
    rw [this] at hr
    rcases List.mem_cons.mp hr with rfl | hr2
    · rfl
    · rcases List.mem_cons.mp hr2 with rfl | hr3
      · rfl
      · cases hr3
  exact ⟨h, (C6_baseline_ids_positive_and_unique_when_assigned _).2 h⟩

/-- An input whose second row already carries the valid id 1 while the first
row has none. -/
def dupIdParsed : PyDict :=
  [("bc_types", PyVal.list [PyVal.dict [], PyVal.dict [("baseline_id", PyVal.int 1)]])]

/-- C6 counterexample: the backfilled first row receives id 1 and the second
row keeps its pre-existing id 1, so the ids of one extraction's list are not
unique. -/
theorem C6_counterexample :
    (dictRowsOf (clean_to_bc_only dupIdParsed) "bc_types").map
        (fun r => dGet r "baseline_id") =
      [some (PyVal.int 1), some (PyVal.int 1)] ∧
    ¬ ((dictRowsOf (clean_to_bc_only dupIdParsed) "bc_types").map
        (fun r => dGet r "baseline_id")).Nodup := by
  have h : (dictRowsOf (clean_to_bc_only dupIdParsed) "bc_types").map
      (fun r => dGet r "baseline_id") =
      [some (PyVal.int 1), some (PyVal.int 1)] := rfl
  refine ⟨h, ?_⟩
  rw [h]
  simp [List.nodup_cons]

/-- C3: when Stage 1 fails for an image, no Stage 2 task is submitted (the
dispatch count is 0 and the outcome does not depend on what the Stage 2
tasks would have produced), the aggregated entry for the image is the
distinct fatal shape carrying only image id, image path and the error
message — not a domain-result map — and the process exit status is
non-zero. -/
theorem C3_stage1_failure_is_fatal {α β : Type} (image_path image_id e : String)
    (s2 s2' : StageTwoOutcomes β) (rest : List (ImageJob α β))
    (pre post : List (ImageResult α β)) :
    process_image image_path image_id (Except.error e : Except String α) s2 =
      (Except.error e, 0) ∧
    process_image image_path image_id (Except.error e : Except String α) s2 =
      process_image image_path image_id (Except.error e) s2' ∧
    process_all_images
        ({ image_path := image_path, image_id := image_id,
           stage1 := (Except.error e : Except String α), stage2 := s2 } :: rest) =
      ImageResult.fatal image_id image_path e :: process_all_images rest ∧
    mainExitCode (pre ++ ImageResult.fatal (α := α) (β := β) image_id image_path e :: post) = 1 := by
  refine ⟨rfl, rfl, rfl, ?_⟩
  simp [mainExitCode, countFailed, List.countP_append, List.countP_cons, isFatal]

/-- C4: when Stage 1 succeeds, exactly three Stage 2 tasks are dispatched;
each task's slot in the image's result map is its own result (None exactly
when that task raised), independent of its siblings; the result map carries
all three slots (it is assembled from all three terminal outcomes), and the
image is recorded with the success shape, contributing nothing to the fatal
count or the exit status. -/
theorem C4_stage2_tasks_isolated {α β : Type} (image_path image_id : String)
    (pooled : α) (s2 : StageTwoOutcomes β) (e : String)
    (km resp : Except String β) (rest : List (ImageJob α β)) :
    process_image image_path image_id (Except.ok pooled) s2 =
      (Except.ok
        { image_id := image_id, image_path := image_path,
          pooled_population := pooled,
          km_survival := taskSlot s2.km_survival,
          baseline := taskSlot s2.baseline,
          response_outcomes := taskSlot s2.response_outcomes }, 3) ∧
    (process_image image_path image_id (Except.ok pooled)
        { km_survival := km, baseline := Except.error e,
          response_outcomes := resp }).1 =
      Except.ok
        { image_id := image_id, image_path := image_path,
          pooled_population := pooled,
          km_survival := taskSlot km, baseline := Option.none,
          response_outcomes := taskSlot resp } ∧
    process_all_images
        ({ image_path := image_path, image_id := image_id,
           stage1 := Except.ok pooled, stage2 := s2 } :: rest) =
      ImageResult.completed
        { image_id := image_id, image_path := image_path,
          pooled_population := pooled,
          km_survival := taskSlot s2.km_survival,
          baseline := taskSlot s2.baseline,
          response_outcomes := taskSlot s2.response_outcomes } ::
        process_all_images rest ∧
    countFailed (process_all_images
        ({ image_path := image_path, image_id := image_id,
           stage1 := Except.ok pooled, stage2 := s2 } :: rest)) =
      countFailed (process_all_images rest) ∧
    taskSlot (Except.error e : Except String β) = Option.none := by
  refine ⟨rfl, rfl, rfl, ?_, rfl⟩
  simp [process_all_images, process_image, countFailed, List.countP_cons, isFatal]

/-- C5: the lenient sanitizer raises the empty-output error on blank input;
after fence removal it parses the whole text when it is brace-delimited;
otherwise it parses the substring from the first opening brace to the last
closing brace, raising the no-JSON-found error when no such span exists and
the malformed-JSON error when the chosen text fails to parse, and returning
the parsed object on success. -/
theorem C5_extract_first_json_object_spec {J : Type} (loads : String → Option J)
    (text0 : String) :
    (pyStrip text0 = "" →
      extract_first_json_object loads text0 = Except.error SanitizeError.emptyOutput) ∧
    ∀ t : List Char, pyStrip text0 ≠ "" →
      t = removeTrailingFence (removeLeadingFence (pyStrip text0).toList) →
      ((t.take 1 = [obrace] ∧ t.reverse.take 1 = [cbrace] →
        extract_first_json_object loads text0 =
          match loads (String.mk t) with
          | some j => Except.ok j
          | Option.none => Except.error SanitizeError.malformedJson) ∧
      (¬ (t.take 1 = [obrace] ∧ t.reverse.take 1 = [cbrace]) →
        (braceSpan t = Option.none →
          extract_first_json_object loads text0 = Except.error SanitizeError.noJsonFound) ∧
        ∀ sp, braceSpan t = some sp →
          extract_first_json_object loads text0 =
            match loads (String.mk sp) with
            | some j => Except.ok j
            | Option.none => Except.error SanitizeError.malformedJson)) := by
  constructor
  · intro h
    simp only [extract_first_json_object]
    rw [if_pos h]
  · intro t hne ht
    subst ht
    constructor
    · intro hdir
      simp only [extract_first_json_object]
      rw [if_neg hne, if_pos hdir]
    · intro hdir
      constructor
      · intro hspan
        simp only [extract_first_json_object]
        rw [if_neg hne, if_neg hdir, hspan]
      · intro sp hspan
        simp only [extract_first_json_object]
        rw [if_neg hne, if_neg hdir, hspan]

/-- C5 witness: the theorem applied to prose-wrapped text with an
always-succeeding parser — the first-to-last-brace span is parsed. -/
theorem C5_witness :
    extract_first_json_object (fun s => some s) "prose \x7ba\x7d more \x7bb\x7d tail" =
      Except.ok "\x7ba\x7d more \x7bb\x7d" := by
  have h := (C5_extract_first_json_object_spec (fun s => some s)
      "prose \x7ba\x7d more \x7bb\x7d tail").2
    (removeTrailingFence (removeLeadingFence
      (pyStrip "prose \x7ba\x7d more \x7bb\x7d tail").toList))
    (by decide) rfl
  have h2 := (h.2 (by decide)).2 ("\x7ba\x7d more \x7bb\x7d".toList) (by decide)
  exact h2

/-- C7: the numeric coercions are total over the embedded value universe —
null, ints, bools (Python int instances), finite floats, strings, lists and
dicts all yield a result rather than an exception — and every string with
no extractable numeric token yields null. -/
theorem C7_numeric_coercion_total :
    (to_int_or_none PyVal.none = Option.none) ∧
    (∀ s : String, findIntToken (pyStripList s.toList) = Option.none →
      to_int_or_none (PyVal.str s) = Option.none) ∧
    (∀ n : Int, to_int_or_none (PyVal.int n) = some n) ∧
    (∀ q : Rat, to_int_or_none (PyVal.float q) = some (truncRat q)) ∧
    (∀ b : Bool, to_int_or_none (PyVal.bool b) = some (if b then 1 else 0)) ∧
    (∀ xs, to_int_or_none (PyVal.list xs) = Option.none) ∧
    (∀ xs, to_int_or_none (PyVal.dict xs) = Option.none) ∧
    (to_float_or_none PyVal.none = Option.none) ∧
    (∀ s : String,
      findFloatToken (pyStripList ((pyStripList s.toList).filter
        (fun c => c != '%'))) = Option.none →
      to_float_or_none (PyVal.str s) = Option.none) ∧
    (∀ n : Int, to_float_or_none (PyVal.int n) = some (n : Rat)) ∧
    (∀ q : Rat, to_float_or_none (PyVal.float q) = some q) ∧
    (∀ b : Bool, to_float_or_none (PyVal.bool b) = some (if b then 1 else 0)) ∧
    (∀ xs, to_float_or_none (PyVal.list xs) = Option.none) ∧
    (∀ xs, to_float_or_none (PyVal.dict xs) = Option.none) := by
  refine ⟨rfl, ?_, fun _ => rfl, fun _ => rfl, fun _ => rfl, fun _ => rfl,
    fun _ => rfl, rfl, ?_, fun _ => rfl, fun _ => rfl, fun _ => rfl,
    fun _ => rfl, fun _ => rfl⟩
  · intro s h
    have hdef : to_int_or_none (PyVal.str s) =
        match findIntToken (pyStripList s.toList) with
        | some tok => some (parseIntToken tok)
        | Option.none => Option.none := rfl
    rw [hdef, h]
  · intro s h
    have hdef : to_float_or_none (PyVal.str s) =
        (findFloatToken (pyStripList ((pyStripList s.toList).filter
          (fun c => c != '%')))).map parseFloatToken := rfl
    rw [hdef, h]
    rfl

/-- C7 witness: a string with no numeric token coerces to null under both
functions. -/
theorem C7_witness :
    to_int_or_none (PyVal.str "no digits here") = Option.none ∧
    to_float_or_none (PyVal.str "n/a %") = Option.none :=
  ⟨(C7_numeric_coercion_total).2.1 "no digits here" (by decide),
   (C7_numeric_coercion_total).2.2.2.2.2.2.2.2.1 "n/a %" (by decide)⟩

/-- C10: the strict sanitizer returns the trimmed text unchanged whenever it
is brace-delimited, performing no parse; a boundary-passing but unparsable
text therefore sails through sanitization, and the failure only surfaces as
Stage 1's schema-validation error. -/
theorem C10_safe_json_text_no_parse {M : Type}
    (modelValidateJson : String → Option M) (s ctx imageId : String) :
    ((pyStrip s).toList.take 1 = [obrace] ∧
        (pyStrip s).toList.reverse.take 1 = [cbrace] →
      safe_json_text (some s) ctx = Except.ok (pyStrip s)) ∧
    ((pyStrip s).toList.take 1 = [obrace] ∧
        (pyStrip s).toList.reverse.take 1 = [cbrace] →
      modelValidateJson (pyStrip s) = Option.none →
      pooledStage1Validate modelValidateJson imageId (some s) =
        Except.error (Stage1Error.schemaValidationFailed imageId)) := by
  constructor
  · intro h
    simp only [safe_json_text, Option.getD_some]
    rw [if_pos h]
  · intro h hv
    simp only [pooledStage1Validate, safe_json_text, Option.getD_some]
    rw [if_pos h]
    simp only [hv]

/-- C10 witness: `(not json)` wrapped in braces passes the strict boundary
check unchanged and only fails at the schema-validation step. -/
theorem C10_witness :
    safe_json_text (some "\x7bnot json\x7d") "img1" = Except.ok "\x7bnot json\x7d" ∧
    pooledStage1Validate (M := Unit) (fun _ => Option.none) "img1"
        (some "\x7bnot json\x7d") =
      Except.error (Stage1Error.schemaValidationFailed "img1") :=
  ⟨by
    have h := (C10_safe_json_text_no_parse (M := Unit) (fun _ => Option.none)
      "\x7bnot json\x7d" "img1" "img1").1 (by decide)
    simpa using h,
   by
    have h := (C10_safe_json_text_no_parse (M := Unit) (fun _ => Option.none)
      "\x7bnot json\x7d" "img1" "img1").2 (by decide) rfl
    exact h⟩

/-! ## Round-trip lemmas for the baseline validator's field checks -/

theorem vOptStr_round (o : Option PyVal) (x : Option String)
    (h : vOptStr o = some x) : pyOfOptStr x = o.getD PyVal.none := by
  rcases o with _ | v
  · cases h; rfl
  · cases v <;> cases h <;> rfl

theorem vReqPosInt_round (o : Option PyVal) (n : Int)
    (h : vReqPosInt o = some n) : PyVal.int n = o.getD PyVal.none := by
  rcases o with _ | v
  · cases h
  · cases v <;> try cases h
    case int n0 =>
      have hdef : vReqPosInt (some (PyVal.int n0)) =
          if 1 ≤ n0 then some n0 else Option.none := rfl
      rw [hdef] at h
      by_cases hp : 1 ≤ n0
      · rw [if_pos hp] at h; cases h; rfl
      · rw [if_neg hp] at h; cases h

theorem vOptNonnegInt_round (o : Option PyVal) (x : Option Int)
    (h : vOptNonnegInt o = some x) : pyOfOptInt x = o.getD PyVal.none := by
  rcases o with _ | v
  · cases h; rfl
  · cases v <;> try cases h <;> try rfl
    case int n0 =>
      have hdef : vOptNonnegInt (some (PyVal.int n0)) =
          if 0 ≤ n0 then some (some n0) else Option.none := rfl
      rw [hdef] at h
      by_cases hp : 0 ≤ n0
      · rw [if_pos hp] at h; cases h; rfl
      · rw [if_neg hp] at h; cases h

theorem vOptRangeFloat_round (lo hi : Rat) (o : Option PyVal) (x : Option Rat)
    (h : vOptRangeFloat lo hi o = some x) : pyOfOptRat x = o.getD PyVal.none := by
  rcases o with _ | v
  · cases h; rfl
  · cases v <;> try cases h <;> try rfl
    case float q =>
      have hdef : vOptRangeFloat lo hi (some (PyVal.float q)) =
          if lo ≤ q ∧ q ≤ hi then some (some q) else Option.none := rfl
      rw [hdef] at h
      by_cases hp : lo ≤ q ∧ q ≤ hi
      · rw [if_pos hp] at h; cases h; rfl
      · rw [if_neg hp] at h; cases h

theorem vEnum_round (vals : List String) (o : Option PyVal) (s : String)
    (h : vEnum vals o = some s) : PyVal.str s = o.getD PyVal.none := by
  rcases o with _ | v
  · cases h
  · cases v <;> try cases h
    case str s0 =>
      have hdef : vEnum vals (some (PyVal.str s0)) =
          if s0 ∈ vals then some s0 else Option.none := rfl
      rw [hdef] at h
      by_cases hp : s0 ∈ vals
      · rw [if_pos hp] at h; cases h; rfl
      · rw [if_neg hp] at h; cases h

theorem vOptEnum_round (vals : List String) (o : Option PyVal) (x : Option String)
    (h : vOptEnum vals o = some x) : pyOfOptStr x = o.getD PyVal.none := by
  rcases o with _ | v
  · cases h; rfl
  · cases v <;> try cases h <;> try rfl
    case str s0 =>
      have hdef : vOptEnum vals (some (PyVal.str s0)) =
          if s0 ∈ vals then some (some s0) else Option.none := rfl
      rw [hdef] at h
      by_cases hp : s0 ∈ vals
      · rw [if_pos hp] at h; cases h; rfl
      · rw [if_neg hp] at h; cases h

theorem optStr_field (o : Option PyVal) (h : (vOptStr o).isSome = true) :
    pyOfOptStr ((vOptStr o).getD Option.none) = o.getD PyVal.none := by
  obtain ⟨x, hx⟩ := Option.isSome_iff_exists.mp h
  rw [hx, Option.getD_some]
  exact vOptStr_round o x hx

theorem reqPosInt_field (o : Option PyVal) (h : (vReqPosInt o).isSome = true) :
    PyVal.int ((vReqPosInt o).getD 0) = o.getD PyVal.none := by
  obtain ⟨n, hn⟩ := Option.isSome_iff_exists.mp h
  rw [hn, Option.getD_some]
  exact vReqPosInt_round o n hn

theorem optNonnegInt_field (o : Option PyVal)
    (h : (vOptNonnegInt o).isSome = true) :
    pyOfOptInt ((vOptNonnegInt o).getD Option.none) = o.getD PyVal.none := by
  obtain ⟨x, hx⟩ := Option.isSome_iff_exists.mp h
  rw [hx, Option.getD_some]
  exact vOptNonnegInt_round o x hx

theorem optRangeFloat_field (lo hi : Rat) (o : Option PyVal)
    (h : (vOptRangeFloat lo hi o).isSome = true) :
    pyOfOptRat ((vOptRangeFloat lo hi o).getD Option.none) = o.getD PyVal.none := by
  obtain ⟨x, hx⟩ := Option.isSome_iff_exists.mp h
  rw [hx, Option.getD_some]
  exact vOptRangeFloat_round lo hi o x hx

theorem enum_field (vals : List String) (o : Option PyVal)
    (h : (vEnum vals o).isSome = true) :
    PyVal.str ((vEnum vals o).getD "") = o.getD PyVal.none := by
  obtain ⟨x, hx⟩ := Option.isSome_iff_exists.mp h
  rw [hx, Option.getD_some]
  exact vEnum_round vals o x hx

theorem optEnum_field (vals : List String) (o : Option PyVal)
    (h : (vOptEnum vals o).isSome = true) :
    pyOfOptStr ((vOptEnum vals o).getD Option.none) = o.getD PyVal.none := by
  obtain ⟨x, hx⟩ := Option.isSome_iff_exists.mp h
  rw [hx, Option.getD_some]
  exact vOptEnum_round vals o x hx

/-- C8 (amended): for every normalized object the baseline row validator
accepts, serialization reproduces the value of every field present in the
input exactly, and emits every declared schema field; a declared field
absent from the input is therefore added to the output as an explicit null
rather than the field set being reproduced exactly. -/
theorem C8_validate_serialize_roundtrip (d : PyDict)
    (rec : BaselineCharacteristic)
    (h : validateBaselineCharacteristic d = some rec) :
    (∀ k : String, dGet (serializeBaselineCharacteristic rec) k =
      if k ∈ bcFieldNames then some ((dGet d k).getD PyVal.none)
      else Option.none) ∧
    (∀ (k : String) (v : PyVal), (k, v) ∈ d →
      dGet (serializeBaselineCharacteristic rec) k = some v) := by
  unfold validateBaselineCharacteristic at h
  split at h
  case isFalse => cases h
  case isTrue hcond =>
    obtain ⟨⟨hnd, hkeys⟩, hchecks⟩ := hcond
    have hb : rec = bcBuild d := (Option.some.inj h).symm
    subst hb
    simp only [bcFieldChecks, Bool.and_eq_true] at hchecks
    obtain ⟨⟨⟨⟨⟨⟨⟨⟨⟨⟨⟨⟨⟨⟨⟨⟨c1, c2⟩, c3⟩, c4⟩, c5⟩, c6⟩, c7⟩, c8⟩, c9⟩,
      c10⟩, c11⟩, c12⟩, c13⟩, c14⟩, c15⟩, c16⟩, c17⟩ := hchecks
    have hmain : ∀ k : String, dGet (serializeBaselineCharacteristic (bcBuild d)) k =
        if k ∈ bcFieldNames then some ((dGet d k).getD PyVal.none)
        else Option.none := by
      intro k
      by_cases hk : k ∈ bcFieldNames
      · rw [if_pos hk]
        simp only [bcFieldNames, List.mem_cons, List.not_mem_nil, or_false] at hk
        rcases hk with rfl | rfl | rfl | rfl | rfl | rfl | rfl | rfl | rfl | rfl |
          rfl | rfl | rfl | rfl | rfl | rfl | rfl
        · exact congrArg some (reqPosInt_field _ c1)
        · exact congrArg some (optStr_field _ c2)
        · exact congrArg some (optStr_field _ c3)
        · exact congrArg some (optStr_field _ c4)
        · exact congrArg some (optStr_field _ c5)
        · exact congrArg some (optStr_field _ c6)
        · exact congrArg some (enum_field _ _ c7)
        · exact congrArg some (optStr_field _ c8)
        · exact congrArg some (optEnum_field _ _ c9)
        · exact congrArg some (optStr_field _ c10)
        · exact congrArg some (optStr_field _ c11)
        · exact congrArg some (optStr_field _ c12)
        · exact congrArg some (optStr_field _ c13)
        · exact congrArg some (optStr_field _ c14)
        · exact congrArg some (optStr_field _ c15)
        · exact congrArg some (optNonnegInt_field _ c16)
        · exact congrArg some (optRangeFloat_field _ _ _ c17)
      · rw [if_neg hk]
        apply dGet_eq_none_of_not_mem_keys
        exact hk
    refine ⟨hmain, ?_⟩
    intro k v hmem
    have hkd : k ∈ keysOf d := List.mem_map_of_mem Prod.fst hmem
    have hkf : k ∈ bcFieldNames := hkeys k hkd
    have hdv : dGet d k = some v := dGet_of_mem_nodup d k v hnd hmem
    rw [hmain k, if_pos hkf, hdv]
    rfl

/-- C8 counterexample: the normalizer output row for `{"bc_types": [{}]}` is
accepted by the validator, yet its serialization carries the full declared
field set — e.g. `trial_id` (as null) — while the accepted input had no
`trial_id` key at all, so re-serialization does not reproduce exactly the
same field set. -/
theorem C8_counterexample :
    dictRowsOf (clean_to_bc_only [("bc_types", PyVal.list [PyVal.dict []])])
      "bc_types" = [bcDefaultRow] ∧
    (validateBaselineCharacteristic bcDefaultRow).isSome = true ∧
    (validateBaselineCharacteristic bcDefaultRow).map
        (fun rec => dGet (serializeBaselineCharacteristic rec) "trial_id") =
      some (some PyVal.none) ∧
    (validateBaselineCharacteristic bcDefaultRow).map
        (fun rec => keysOf (serializeBaselineCharacteristic rec)) =
      some bcFieldNames ∧
    "trial_id" ∈ bcFieldNames ∧
    "trial_id" ∉ keysOf bcDefaultRow :=
  ⟨rfl, rfl, rfl, rfl, by decide, by decide⟩

/-- C8 witness: the theorem applied to the concrete accepted row — every
field present in the input is reproduced with its exact value. -/
theorem C8_witness :
    dGet (serializeBaselineCharacteristic (bcBuild bcDefaultRow))
        "population_type" = some (PyVal.str "Other") ∧
    dGet (serializeBaselineCharacteristic (bcBuild bcDefaultRow))
        "baseline_id" = some (PyVal.int 1) := by
  have h := C8_validate_serialize_roundtrip bcDefaultRow (bcBuild bcDefaultRow) rfl
  exact ⟨h.2 "population_type" (PyVal.str "Other") (List.mem_cons_self _ _),
    h.2 "baseline_id" (PyVal.int 1) (by
      have : ("baseline_id", PyVal.int 1) ∈ bcDefaultRow := by
        simp [bcDefaultRow]
      exact this)⟩
